import Mathlib

/-!
# Verification of the `RVCPipeline` orchestrator

Shallow embedding of `src/tts_engines/rvc/infer/infer.py` (the `RVCPipeline`
class): its resource-lifecycle state machine (`load_person`,
`load_synthesizer`, `load_index_file`, `get_vc`, `clean_up`) and its
conversion-orchestration control flow (`voice_conversion`, `infer_pipeline`).

External collaborators (torch checkpoint loading, faiss index reading, the
embedding extractor, the per-utterance `VC.pipeline` synthesis call, audio
I/O, the split/merge helpers, `librosa.resample`) are modelled as an
abstract environment `Env` of fallible functions; audio buffers are opaque
string identities since no verified claim inspects waveform contents.
Python exceptions are modelled by an `Outcome` carrying the raising error,
paired with the mutable object state at the moment control leaves a method
(Python attribute mutations performed before a raise are retained, exactly
as in the source).  Every externally observable load/build action is
recorded in an effect trace (`Eff`) so that caching claims ("zero redundant
reloads") are statements about the emptiness of that trace.
-/

/-- Python exception classes that the embedded code can raise. -/
inductive PyErr where
  | typeError
  | attributeError
  | indexError
  | nameError
  | recursionError
  | raised (msg : String)
deriving DecidableEq, Repr

deriving instance DecidableEq for Except

/-- `Config(device)` as consumed by the pipeline: the only attributes the
core reads are `device` and `is_half`. -/
structure Cfg where
  device : String
  is_half : Bool
deriving DecidableEq, Repr

/-- A loaded checkpoint artifact (`torch.load` result): the keys the core
reads.  `embShape0` stands for `cpt["weight"]["emb_g.weight"].shape[0]` and
`weightId` is the identity of the weight mapping `cpt["weight"]`. -/
structure Checkpoint where
  config : List Int
  weightId : String
  embShape0 : Int
  f0 : Option Int
  version : Option String
deriving DecidableEq, Repr

/-- A persisted faiss index: dimensionality `d` and the vector set
(`reconstruct_n(0, ntotal)` returns `vectors`; `ntotal = vectors.length`).
Vectors are opaque `Int` identities: no claim inspects their coordinates. -/
structure FaissIndex where
  d : Int
  vectors : List Int
deriving DecidableEq, Repr

/-- The four synthesizer variants of `..lib.infer_pack.models` selected in
`load_synthesizer`. -/
inductive Arch where
  | ms256_sid
  | ms256_nono
  | ms768_sid
  | ms768_nono
deriving DecidableEq, Repr

/-- A constructed synthesis network: which constructor ran, the config tuple
it was given, the `is_half` keyword (sid variants only), then the mutations
applied afterwards (`load_state_dict`, `.to(device)`, `.half()/.float()`). -/
structure NetG where
  arch : Arch
  cfg : List Int
  ctorHalf : Option Bool
  weights : Option String
  device : Option String
  half : Option Bool
deriving DecidableEq, Repr

/-- The loaded embedding extractor (`load_hubert` result). -/
structure Hubert where
  id : String
  device : Option String := none
  half : Option Bool := none
deriving DecidableEq, Repr

/-- A dynamically typed scalar: `filter_radius` normally carries a number,
but the chunk recursion of `voice_conversion` can bind a model-identifier
string into that slot, so both shapes are admitted. -/
inductive Scalar where
  | int (n : Int)
  | str (s : String)
deriving DecidableEq, Repr

/-- The matching engine (`VC` object of `..infer.pipeline`): constructed
either as `VC(tgt_sr, config, data, d, train_data, False)` or as
`VC(tgt_sr, config)`; we record exactly the constructor arguments. -/
structure VCEngine where
  tgt_sr : Option Int
  cfg : Option Cfg
  withIndex : Option (List Int × Int × List Int)
deriving DecidableEq, Repr

/-- The mutable state of one `RVCPipeline` instance (`__init__`, lines
53-70 of the source). -/
structure RVCState where
  config : Option Cfg
  hubert_model : Option Hubert
  tgt_sr : Option Int
  net_g : Option NetG
  vc : Option VCEngine
  cpt : Option Checkpoint
  version : Option String
  synth_version : Option String
  n_spk : Option Int
  debug_rvc : Bool
  if_f0 : Option Int
  file_index : Option String
  train_data : Option (List Int)
  data : Option (List Int)
  training_data_size : Option Int
  d : Option Int
  person : Option String
deriving DecidableEq, Repr

/-- Arguments of one `VC.pipeline(...)` invocation (lines 263-283). -/
structure PipeArgs where
  hubert : Option Hubert
  netG : Option NetG
  sid : Int
  audio : String
  inputPath : Option String
  f0UpKey : Int
  f0Method : Option String
  fileIndex : String
  indexRate : Option Int
  ifF0 : Int
  filterRadius : Option Scalar
  tgtSr : Option Int
  resampleSr : Int
  rmsMixRate : Option Int
  version : Option String
  protect : Option Int
  hopLength : Option Int
  f0autotune : Bool
  f0File : Option String
deriving DecidableEq, Repr

/-- Externally observable load/build/I-O actions of the pipeline; caching
claims are statements about which of these a call emits. -/
inductive Eff where
  | checkpointRead (path : String)
  | indexRead (path : String)
  | trainDataRecompute
  | vcBuild
  | synthBuild
  | hubertLoad (m : Option Scalar)
  | splitCall (p : Option String)
  | mergeCall (p : String)
  | fileRemove (p : String)
  | fileWrite (p : String)
  | pipelineCall (pa : PipeArgs)
  | cudaEmptyCache
  | logException
deriving DecidableEq, Repr

/-- Result of a method call: either a returned value or a raised Python
exception. -/
inductive Outcome (α : Type) where
  | ok (v : α)
  | exn (e : PyErr)
deriving DecidableEq, Repr

/-- `Outcome.isOk o` is `true` when no exception was raised. -/
def Outcome.isOk : Outcome α → Bool
  | .ok _ => true
  | .exn _ => false

/-- One method execution: outcome, object state when control leaves the
method, and the trace of external effects performed. -/
structure PyRun (α : Type) where
  out : Outcome α
  s : RVCState
  tr : List Eff
deriving DecidableEq, Repr

/-- Sequential composition: Python statements run in order, an exception
aborts the rest, traces accumulate. -/
def pySeq (r : PyRun Unit) (k : RVCState → PyRun α) : PyRun α :=
  match r with
  | ⟨.exn e, s, tr⟩ => ⟨.exn e, s, tr⟩
  | ⟨.ok _, s, tr⟩ =>
    let r2 := k s
    ⟨r2.out, r2.s, tr ++ r2.tr⟩

/-- The external world consumed by the pipeline: every collaborator the
source calls, as a fallible abstract function. -/
structure Env where
  mkConfig : String → Cfg
  torch_load : String → Except PyErr Checkpoint
  faiss_read : String → Except PyErr FaissIndex
  load_embedding : Option Scalar → Except PyErr String
  load_audio : Option String → Except PyErr String
  peakNorm : String → Except PyErr String
  process_audio : Option String → Except PyErr (String × String)
  listWavs : String → List String
  merge : String → Except PyErr (Int × String)
  pipeline : PipeArgs → Except PyErr String
  resample : String → Option Int → Int → Except PyErr String
  write : String → String → Option Int → Except PyErr Unit

/-- `RVCPipeline.__init__(device)` (lines 53-70). -/
def initState (env : Env) (device : String) : RVCState :=
  { config := some (env.mkConfig device), hubert_model := none, tgt_sr := none,
    net_g := none, vc := none, cpt := none, version := none,
    synth_version := none, n_spk := none, debug_rvc := true, if_f0 := none,
    file_index := none, train_data := none, data := none,
    training_data_size := none, d := none, person := none }

/-- The state every field of which is `None`, with a given debug flag; this
is what `clean_up` leaves behind (note: unlike `__init__`, `config` is
`None` here and `debug_rvc` keeps its previous value). -/
def groundState (dbg : Bool) : RVCState :=
  { config := none, hubert_model := none, tgt_sr := none, net_g := none,
    vc := none, cpt := none, version := none, synth_version := none,
    n_spk := none, debug_rvc := dbg, if_f0 := none, file_index := none,
    train_data := none, data := none, training_data_size := none, d := none,
    person := none }

/-- `RVCPipeline.clean_up` (lines 72-98): drops every cached reference,
flushes the device cache, and nulls all fields -- including `config`, which
`__init__` would have populated; `debug_rvc` is not touched. -/
def clean_up (s : RVCState) : RVCState × List Eff :=
  (groundState s.debug_rvc, [.cudaEmptyCache])

/-- `RVCPipeline.load_hubert(embedder_model)` (lines 100-110): load the
embedding extractor, move it to the configured device and precision.
Reading `self.config.device` on a `None` config raises `AttributeError`. -/
def load_hubert (env : Env) (s : RVCState) (embedder_model : Option Scalar) :
    PyRun Unit :=
  match env.load_embedding embedder_model with
  | .error e => ⟨.exn e, s, [.hubertLoad embedder_model]⟩
  | .ok hid =>
    let s1 := {s with hubert_model := some ⟨hid, none, none⟩}
    match s1.config with
    | none => ⟨.exn .attributeError, s1, [.hubertLoad embedder_model]⟩
    | some c =>
      let hub : Hubert := ⟨hid, some c.device, some c.is_half⟩
      ⟨.ok (), {s1 with hubert_model := some hub}, [.hubertLoad embedder_model]⟩

/-- `l[-3]` on a Python list (read). -/
def pyGetNeg3 (l : List Int) : Option Int :=
  if 3 ≤ l.length then l.get? (l.length - 3) else none

/-- `l[:m]` on a Python list, for a possibly negative stop `m`. -/
def pySlice (l : List Int) (m : Int) : List Int :=
  if 0 ≤ m then l.take m.toNat
  else l.take (l.length - min m.natAbs l.length)

/-- `RVCPipeline.load_synthesizer(if_f0)` (lines 142-161): if the cached
`if_f0` differs, select one of the four synthesizer constructors from
`(self.version, if_f0)` (no constructor runs for any other version value),
record the new flag, load the new checkpoint's weights into whatever
network is then current, and move it to the configured device/precision. -/
def load_synthesizer (s : RVCState) (if_f0 : Int) : PyRun Unit :=
  if s.if_f0 ≠ some if_f0 then
    let build : Outcome (Option NetG × List Eff) :=
      if s.version = some "v1" then
        match s.cpt with
        | none => .exn .typeError
        | some cpt =>
          if if_f0 = 1 then
            match s.config with
            | none => .exn .attributeError
            | some c =>
              .ok (some ⟨.ms256_sid, cpt.config, some c.is_half, none, none, none⟩,
                [.synthBuild])
          else
            .ok (some ⟨.ms256_nono, cpt.config, none, none, none, none⟩,
              [.synthBuild])
      else if s.version = some "v2" then
        match s.cpt with
        | none => .exn .typeError
        | some cpt =>
          if if_f0 = 1 then
            match s.config with
            | none => .exn .attributeError
            | some c =>
              .ok (some ⟨.ms768_sid, cpt.config, some c.is_half, none, none, none⟩,
                [.synthBuild])
          else
            .ok (some ⟨.ms768_nono, cpt.config, none, none, none, none⟩,
              [.synthBuild])
      else .ok (none, [])
    match build with
    | .exn e => ⟨.exn e, s, []⟩
    | .ok (newNet, trB) =>
      let s1 : RVCState :=
        { s with
          net_g := (match newNet with | some n => some n | none => s.net_g),
          if_f0 := some if_f0 }
      match s1.net_g with
      | none => ⟨.exn .attributeError, s1, trB⟩
      | some n =>
        match s1.cpt with
        | none => ⟨.exn .typeError, s1, trB⟩
        | some cpt =>
          let n1 := {n with weights := some cpt.weightId}
          match s1.config with
          | none => ⟨.exn .attributeError, {s1 with net_g := some n1}, trB⟩
          | some c =>
            let n2 := {n1 with device := some c.device, half := some c.is_half}
            ⟨.ok (), {s1 with net_g := some n2}, trB⟩
  else ⟨.ok (), s, []⟩

/-- `RVCPipeline.load_person(weight_root)` (lines 163-171): if the path
differs from the cached `person`, record the new key, load the checkpoint,
read the target sample rate from `config[-1]`, overwrite `config[-3]` with
the true speaker-embedding width, read the f0 flag (default 1) and version
tag (default "v1"), and delegate to `load_synthesizer`. -/
def load_person (env : Env) (s : RVCState) (weight_root : String) : PyRun Unit :=
  if s.person ≠ some weight_root then
    let s1 := {s with person := some weight_root}
    match env.torch_load weight_root with
    | .error e => ⟨.exn e, s1, [.checkpointRead weight_root]⟩
    | .ok cpt0 =>
      let s2 := {s1 with cpt := some cpt0}
      match cpt0.config.getLast? with
      | none => ⟨.exn .indexError, s2, [.checkpointRead weight_root]⟩
      | some sr =>
        let s3 := {s2 with tgt_sr := some sr}
        if 3 ≤ cpt0.config.length then
          let cpt1 :=
            {cpt0 with config := cpt0.config.set (cpt0.config.length - 3) cpt0.embShape0}
          let s4 := {s3 with cpt := some cpt1}
          let if_f0 := cpt1.f0.getD 1
          let s5 := {s4 with version := some (cpt1.version.getD "v1")}
          let r := load_synthesizer s5 if_f0
          ⟨r.out, r.s, .checkpointRead weight_root :: r.tr⟩
        else ⟨.exn .indexError, s3, [.checkpointRead weight_root]⟩
  else ⟨.ok (), s, []⟩

/-- First block of `load_index_file` (lines 113-122): a `None` path clears
the cached path and the index-derived arrays; a changed path records the
new key and reloads `d` and `data` from storage; a same path does nothing. -/
def lif_step1 (env : Env) (s : RVCState) (file_index : Option String) : PyRun Unit :=
  match file_index with
  | none =>
    ⟨.ok (), {s with file_index := none, data := none, d := none, train_data := none}, []⟩
  | some p =>
    if s.file_index ≠ some p then
      let s1 := {s with file_index := some p}
      match env.faiss_read p with
      | .error e => ⟨.exn e, s1, [.indexRead p]⟩
      | .ok idx =>
        ⟨.ok (), {s1 with d := some idx.d, data := some idx.vectors}, [.indexRead p]⟩
    else ⟨.ok (), s, []⟩

/-- Second block of `load_index_file` (lines 124-131): when the requested
`training_data_size` differs and an index path is cached, recompute
`train_data` as the bounded prefix of `data` (raising `TypeError` on
`len(None)` when `data` is absent) and tear down any matching engine. -/
def lif_step2 (s : RVCState) (training_data_size : Int) : PyRun Unit :=
  if s.training_data_size ≠ some training_data_size ∧ s.file_index ≠ none then
    let s1 := {s with training_data_size := some training_data_size}
    match s1.data with
    | none => ⟨.exn .typeError, s1, []⟩
    | some dat =>
      let training_data_size_min := min training_data_size (dat.length : Int)
      let s2 := {s1 with train_data := some (pySlice dat training_data_size_min)}
      let s3 := if s2.vc ≠ none then {s2 with vc := none} else s2
      ⟨.ok (), s3, [.trainDataRecompute]⟩
  else ⟨.ok (), s, []⟩

/-- Third block of `load_index_file` (lines 133-137): build the matching
engine only when absent, index-backed when all three arrays are present. -/
def lif_step3 (s : RVCState) : PyRun Unit :=
  if s.vc = none then
    match s.data, s.d, s.train_data with
    | some dat, some dv, some td =>
      ⟨.ok (), {s with vc := some ⟨s.tgt_sr, s.config, some (dat, dv, td)⟩}, [.vcBuild]⟩
    | _, _, _ =>
      ⟨.ok (), {s with vc := some ⟨s.tgt_sr, s.config, none⟩}, [.vcBuild]⟩
  else ⟨.ok (), s, []⟩

/-- Fourth block of `load_index_file` (lines 139-140): resolve the speaker
count lazily from the corrected checkpoint config. -/
def lif_step4 (s : RVCState) : PyRun Unit :=
  if s.n_spk = none then
    match s.cpt with
    | none => ⟨.exn .typeError, s, []⟩
    | some cpt =>
      match pyGetNeg3 cpt.config with
      | none => ⟨.exn .indexError, s, []⟩
      | some v => ⟨.ok (), {s with n_spk := some v}, []⟩
  else ⟨.ok (), s, []⟩

/-- `RVCPipeline.load_index_file(file_index, training_data_size)`
(lines 112-140): the four blocks in source order. -/
def load_index_file (env : Env) (s : RVCState) (file_index : Option String)
    (training_data_size : Int) : PyRun Unit :=
  pySeq (lif_step1 env s file_index) fun s1 =>
  pySeq (lif_step2 s1 training_data_size) fun s2 =>
  pySeq (lif_step3 s2) fun s3 =>
  lif_step4 s3

/-- `RVCPipeline.get_vc(weight_root, sid, file_index, training_data_size,
debug_rvc)` (lines 302-307): ensure-ready, returning `self.vc`.  `sid` and
`debug_rvc` are only printed, never used. -/
def get_vc (env : Env) (s : RVCState) (weight_root : String) (_sid : Int)
    (file_index : Option String) (training_data_size : Int) (_debug_rvc : Bool) :
    PyRun (Option VCEngine) :=
  match load_person env s weight_root with
  | ⟨.exn e, s1, tr1⟩ => ⟨.exn e, s1, tr1⟩
  | ⟨.ok _, s1, tr1⟩ =>
    match load_index_file env s1 file_index training_data_size with
    | ⟨.exn e, s2, tr2⟩ => ⟨.exn e, s2, tr1 ++ tr2⟩
    | ⟨.ok _, s2, tr2⟩ => ⟨.ok s2.vc, s2, tr1 ++ tr2⟩

/-- Drop the leading and trailing runs of the character `c`
(Python `str.strip(c)` for a single-character argument). -/
def stripBoth (c : Char) (l : List Char) : List Char :=
  ((l.dropWhile (· = c)).reverse.dropWhile (· = c)).reverse

/-- The chained `.strip(" ").strip('"').strip("\n").strip('"').strip(" ")`
applied to index paths and split directories (lines 206-211 and 221-223). -/
def pyStripFive (s : String) : String :=
  ⟨stripBoth ' ' (stripBoth '"' (stripBoth '\n' (stripBoth '"' (stripBoth ' ' s.data))))⟩

/-- `pat` is an initial segment of `l`. -/
def startsBy : List Char → List Char → Bool
  | [], _ => true
  | _ :: _, [] => false
  | p :: ps, c :: cs => p = c && startsBy ps cs

/-- Worker for `replaceAll`: the fuel bounds the number of steps; every
step consumes at least one character, so `l.length` fuel is always enough. -/
def replaceAllAux (pat rep : List Char) : List Char → Nat → List Char
  | l, 0 => l
  | [], _ + 1 => []
  | c :: rest, n + 1 =>
    if pat ≠ [] ∧ startsBy pat (c :: rest) then
      rep ++ replaceAllAux pat rep ((c :: rest).drop pat.length) n
    else c :: replaceAllAux pat rep rest n

/-- Python `str.replace(pat, rep)`: replace every occurrence, left to right. -/
def replaceAll (pat rep l : List Char) : List Char :=
  replaceAllAux pat rep l l.length

/-- The index-name normalization of `voice_conversion` (lines 206-213):
strip surrounding space/quote/newline characters and rewrite `trained` to
`added`. -/
def normalizeIndexName (s : String) : String :=
  ⟨replaceAll "trained".data "added".data (pyStripFive s).data⟩

/-- Python `str.strip()` with no argument: trim surrounding whitespace. -/
def pyStripWs (s : String) : String :=
  ⟨((s.data.dropWhile Char.isWhitespace).reverse.dropWhile Char.isWhitespace).reverse⟩

/-- `os.path.dirname` restricted to the forms the source produces. -/
def dirnameS (s : String) : String :=
  match s.data.reverse.dropWhile (· ≠ '/') with
  | [] => ""
  | _ :: t => ⟨t.reverse⟩

/-- `os.path.basename` restricted to the forms the source produces. -/
def basenameS (s : String) : String :=
  ⟨(s.data.reverse.takeWhile (· ≠ '/')).reverse⟩

/-- `s.split('.')[0]`. -/
def beforeDotS (s : String) : String :=
  ⟨s.data.takeWhile (· ≠ '.')⟩

/-- `os.path.join` for the two shapes the source builds. -/
def pathJoin (a b : String) : String :=
  if a = "" then b else a ++ "/" ++ b

/-- `split_audio` as the source receives it: the comparison on line 216 is
against the string `"True"`, so the Python boolean and string shapes must
both be representable. -/
inductive PyBoolStr where
  | pyBool (b : Bool)
  | pyStr (s : String)
deriving DecidableEq, Repr

/-- The sixteen parameters of `RVCPipeline.voice_conversion`
(lines 173-191), with the source's default values. -/
structure VCArgs where
  sid : Int := 0
  input_audio_path : Option String := none
  f0_up_key : Option Int := none
  f0_file : Option String := none
  f0_method : Option String := none
  file_index : Option String := none
  index_rate : Option Int := none
  resample_sr : Int := 0
  rms_mix_rate : Option Int := none
  protect : Option Int := none
  hop_length : Option Int := none
  output_path : Option String := none
  split_audio : PyBoolStr := .pyBool false
  f0autotune : Bool := false
  filter_radius : Option Scalar := none
  embedder_model : Option Scalar := none
deriving DecidableEq, Repr

/-- The arguments of the recursive per-chunk call (lines 233-249): the call
passes fifteen positional arguments into the sixteen-parameter signature,
so position 15 -- the caller's `embedder_model` -- binds to the
`filter_radius` parameter, and the chunk call's `embedder_model` parameter
is left at its default `None`; `split_audio` is the boolean `False` and the
chunk path serves as both input and output. -/
def chunkArgs (a : VCArgs) (k : Int) (fiN : String) (p : String) : VCArgs :=
  { sid := a.sid, input_audio_path := some p, f0_up_key := some k,
    f0_file := none, f0_method := a.f0_method, file_index := some fiN,
    index_rate := a.index_rate, resample_sr := a.resample_sr,
    rms_mix_rate := a.rms_mix_rate, protect := a.protect,
    hop_length := a.hop_length, output_path := some p,
    split_audio := .pyBool false, f0autotune := a.f0autotune,
    filter_radius := a.embedder_model, embedder_model := none }

/-- The shapes a `voice_conversion` call can return: a `(sample_rate,
waveform)` pair (line 296), the `(None, None)` pair of the top-level
handler (line 300), the `("Error with Split Audio", None)` pair (line 220),
or the bare `f"Error {error}"` string of the chunk-batch handler
(line 252), recorded with the exception it stringifies. -/
inductive VCResult where
  | srAudio (sr : Option Int) (audio : String)
  | nonePair
  | splitErrorPair
  | errStr (e : PyErr)
deriving DecidableEq, Repr

/-- The steps of `voice_conversion` before the split/direct branch
(lines 194-215): decode audio, peak-normalize, lazily load the embedding
extractor, read the f0 flag from the checkpoint (`AttributeError` when no
checkpoint is cached), normalize the index path (`AttributeError` when it
is `None`), and adopt `resample_sr` as target rate when it differs and is
at least 16 kHz.  Returns `(audio, if_f0, normalized index path)`. -/
def vc_pre (env : Env) (s : RVCState) (a : VCArgs) :
    PyRun (String × Int × String) :=
  match env.load_audio a.input_audio_path with
  | .error e => ⟨.exn e, s, []⟩
  | .ok audio0 =>
    match env.peakNorm audio0 with
    | .error e => ⟨.exn e, s, []⟩
    | .ok audio =>
      let hub : PyRun Unit :=
        if s.hubert_model = none then load_hubert env s a.embedder_model
        else ⟨.ok (), s, []⟩
      match hub with
      | ⟨.exn e, s1, tr⟩ => ⟨.exn e, s1, tr⟩
      | ⟨.ok _, s1, tr⟩ =>
        match s1.cpt with
        | none => ⟨.exn .attributeError, s1, tr⟩
        | some cpt =>
          let if_f0 := cpt.f0.getD 1
          match a.file_index with
          | none => ⟨.exn .attributeError, s1, tr⟩
          | some fi =>
            let fiN := normalizeIndexName fi
            let s2 :=
              if s1.tgt_sr ≠ some a.resample_sr ∧ 16000 ≤ a.resample_sr then
                {s1 with tgt_sr := some a.resample_sr}
              else s1
            ⟨.ok (audio, if_f0, fiN), s2, tr⟩

/-- The direct (non-segmented) branch (lines 262-283): one
`self.vc.pipeline(...)` call; `self.vc` being `None` raises
`AttributeError` (caught by the enclosing handler). -/
def vc_direct (env : Env) (s : RVCState) (a : VCArgs) (k : Int)
    (audio : String) (if_f0 : Int) (fiN : String) : PyRun String :=
  match s.vc with
  | none => ⟨.exn .attributeError, s, []⟩
  | some _ =>
    let pa : PipeArgs :=
      { hubert := s.hubert_model, netG := s.net_g, sid := a.sid,
        audio := audio, inputPath := a.input_audio_path, f0UpKey := k,
        f0Method := a.f0_method, fileIndex := fiN, indexRate := a.index_rate,
        ifF0 := if_f0, filterRadius := a.filter_radius, tgtSr := s.tgt_sr,
        resampleSr := a.resample_sr, rmsMixRate := a.rms_mix_rate,
        version := s.version, protect := a.protect, hopLength := a.hop_length,
        f0autotune := a.f0autotune, f0File := a.f0_file }
    match env.pipeline pa with
    | .error e => ⟨.exn e, s, [.pipelineCall pa]⟩
    | .ok audioOut => ⟨.ok audioOut, s, [.pipelineCall pa]⟩

/-- The per-chunk loop (lines 232-249): convert each chunk in order with
the recursive call `recf`, discarding each chunk's return value; the first
exception aborts the remaining chunks. -/
def voice_chunks (recf : RVCState → VCArgs → PyRun VCResult)
    (mk : String → VCArgs) : RVCState → List String → PyRun Unit
  | s, [] => ⟨.ok (), s, []⟩
  | s, p :: ps =>
    match recf s (mk p) with
    | ⟨.exn e, s1, tr1⟩ => ⟨.exn e, s1, tr1⟩
    | ⟨.ok _, s1, tr1⟩ =>
      let r := voice_chunks recf mk s1 ps
      ⟨r.out, r.s, tr1 ++ r.tr⟩

/-- The segmentation branch (lines 216-259): split the input, bail out with
the sentinel pair when the splitter reports `"Error"`, enumerate the chunk
files (when the stripped directory is empty the loop variable `paths` was
never assigned, so the loop raises `NameError`, caught by the inner handler
into an error-string result, like any chunk exception), convert every chunk
through `recf`, then merge by the timestamps manifest and delete it.
`Sum.inl` is an early return; `Sum.inr` carries the merged waveform into
the shared post-processing. -/
def vc_split (recf : RVCState → VCArgs → PyRun VCResult) (env : Env)
    (s : RVCState) (a : VCArgs) (k : Int) (fiN : String) :
    PyRun (Sum VCResult String) :=
  match env.process_audio a.input_audio_path with
  | .error e => ⟨.exn e, s, [.splitCall a.input_audio_path]⟩
  | .ok (result, new_dir_path) =>
    if result = "Error" then
      ⟨.ok (.inl .splitErrorPair), s, [.splitCall a.input_audio_path]⟩
    else
      let dir_path := pyStripFive new_dir_path
      if dir_path = "" then
        ⟨.ok (.inl (.errStr .nameError)), s, [.splitCall a.input_audio_path]⟩
      else
        let paths := env.listWavs dir_path
        match voice_chunks recf (chunkArgs a k fiN) s paths with
        | ⟨.exn e, s1, tr1⟩ =>
          ⟨.ok (.inl (.errStr e)), s1, .splitCall a.input_audio_path :: tr1⟩
        | ⟨.ok _, s1, tr1⟩ =>
          match a.input_audio_path with
          | none => ⟨.exn .typeError, s1, .splitCall a.input_audio_path :: tr1⟩
          | some ip =>
            let manifest :=
              pathJoin (dirnameS new_dir_path)
                (beforeDotS (basenameS ip) ++ "_timestamps.txt")
            match env.merge manifest with
            | .error e =>
              ⟨.exn e, s1,
                .splitCall a.input_audio_path :: (tr1 ++ [.mergeCall manifest])⟩
            | .ok (sr, audioM) =>
              ⟨.ok (.inr audioM), {s1 with tgt_sr := some sr},
                .splitCall a.input_audio_path ::
                  (tr1 ++ [.mergeCall manifest, .fileRemove manifest])⟩

/-- The conditional resampling step (lines 286-289): when the cached target
rate differs from a requested rate of at least 16 kHz (and non-zero),
resample and adopt the new rate. -/
def vc_resample (env : Env) (s : RVCState) (a : VCArgs) (audio_opt : String) :
    PyRun String :=
  if s.tgt_sr ≠ some a.resample_sr ∧ 16000 ≤ a.resample_sr ∧ a.resample_sr ≠ 0 then
    match env.resample audio_opt s.tgt_sr a.resample_sr with
    | .error e => ⟨.exn e, s, []⟩
    | .ok au2 => ⟨.ok au2, {s with tgt_sr := some a.resample_sr}, []⟩
  else ⟨.ok audio_opt, s, []⟩

/-- The optional durable write and return value (lines 291-296). -/
def vc_write (env : Env) (s : RVCState) (a : VCArgs) (au : String) :
    PyRun VCResult :=
  match a.output_path with
  | none => ⟨.ok (.srAudio s.tgt_sr au), s, []⟩
  | some op =>
    match env.write op au s.tgt_sr with
    | .error e => ⟨.exn e, s, [.fileWrite op]⟩
    | .ok _ => ⟨.ok (.srAudio s.tgt_sr au), s, [.fileWrite op]⟩

/-- Post-processing shared by both branches (lines 286-296): optional
resampling (adopting the new rate), optional durable write, and the
`(sample_rate, waveform)` return value. -/
def vc_post (env : Env) (s : RVCState) (a : VCArgs) (audio_opt : String) :
    PyRun VCResult :=
  match vc_resample env s a audio_opt with
  | ⟨.exn e, s1, tr⟩ => ⟨.exn e, s1, tr⟩
  | ⟨.ok au, s1, tr⟩ =>
    let r2 := vc_write env s1 a au
    ⟨r2.out, r2.s, tr ++ r2.tr⟩

/-- The `try ... except Exception: return None, None` wrapper of
`voice_conversion` (lines 193 and 298-300). -/
def pyTryVC (r : PyRun VCResult) : PyRun VCResult :=
  match r with
  | ⟨.exn _, s, tr⟩ => ⟨.ok .nonePair, s, tr⟩
  | ⟨.ok v, s, tr⟩ => ⟨.ok v, s, tr⟩

/-- `RVCPipeline.voice_conversion` (lines 173-300).  The coercion
`f0_up_key = int(f0_up_key)` (line 192) runs before the protective `try`,
so a `None` key raises past the method; everything after it is wrapped.
The branch test on line 216 compares `split_audio` with the string
`"True"`.  `fuel` bounds the chunk recursion; the recursive calls always
pass `split_audio = False`, so any fuel of at least 2 is exact. -/
def voice_conversion : Nat → Env → RVCState → VCArgs → PyRun VCResult
  | 0, _, s, _ => ⟨.exn .recursionError, s, []⟩
  | fuel + 1, env, s, a =>
    match a.f0_up_key with
    | none => ⟨.exn .typeError, s, []⟩
    | some k =>
      pyTryVC (
        match vc_pre env s a with
        | ⟨.exn e, s1, tr1⟩ => ⟨.exn e, s1, tr1⟩
        | ⟨.ok (audio, if_f0, fiN), s1, tr1⟩ =>
          if a.split_audio = .pyStr "True" then
            match vc_split (fun st ar => voice_conversion fuel env st ar) env s1 a k fiN with
            | ⟨.exn e, s2, tr2⟩ => ⟨.exn e, s2, tr1 ++ tr2⟩
            | ⟨.ok (.inl earlyRes), s2, tr2⟩ => ⟨.ok earlyRes, s2, tr1 ++ tr2⟩
            | ⟨.ok (.inr audioM), s2, tr2⟩ =>
              let r3 := vc_post env s2 a audioM
              ⟨r3.out, r3.s, tr1 ++ tr2 ++ r3.tr⟩
          else
            match vc_direct env s1 a k audio if_f0 fiN with
            | ⟨.exn e, s2, tr2⟩ => ⟨.exn e, s2, tr1 ++ tr2⟩
            | ⟨.ok audioOut, s2, tr2⟩ =>
              let r3 := vc_post env s2 a audioOut
              ⟨r3.out, r3.s, tr1 ++ tr2 ++ r3.tr⟩)

/-- The `try ... except Exception: log` wrapper of `infer_pipeline`
(lines 335 and 359-360): any exception of the wrapped block is logged and
swallowed; `tr1` is the trace accumulated before the `try`. -/
def entryCatch (tr1 : List Eff) (body : PyRun Unit) : PyRun Unit :=
  match body with
  | ⟨.exn _, s2, tr2⟩ => ⟨.ok (), s2, tr1 ++ tr2 ++ [.logException]⟩
  | ⟨.ok _, s2, tr2⟩ => ⟨.ok (), s2, tr1 ++ tr2⟩

/-- The entry's index-path emptiness test (lines 329-332): `None` or a
whitespace-only string disables index matching. -/
def entryFileIdx (index_path : Option String) : Option String :=
  match index_path with
  | none => none
  | some ip => if pyStripWs ip = "" then none else some ip

/-- `RVCPipeline.infer_pipeline` (lines 309-360): set the debug flag,
resolve the effective index path, run the ensure-ready `get_vc` -- note:
before the `try` -- then, inside the `try`, coerce the three float
hyperparameters (in the argument order of the call on lines 337-353, a
`None` raising `TypeError`), run `voice_conversion` with speaker 0 and the
raw `index_path`, and swallow any exception of that block with a log. -/
def infer_pipeline (fuel : Nat) (env : Env) (s : RVCState)
    (f0up_key : Option Int) (filter_radius : Option Scalar)
    (index_rate : Option Int) (rms_mix_rate : Option Int)
    (protect : Option Int) (hop_length : Option Int)
    (f0method : Option String) (audio_input_path : Option String)
    (audio_output_path : Option String) (model_path : String)
    (index_path : Option String) (split_audio : PyBoolStr)
    (f0autotune : Bool) (embedder_model : Option Scalar)
    (training_data_size : Int) (debug_rvc : Bool) : PyRun Unit :=
  let s0 := {s with debug_rvc := debug_rvc}
  let file_index := entryFileIdx index_path
  match get_vc env s0 model_path 0 file_index training_data_size debug_rvc with
  | ⟨.exn e, s1, tr1⟩ => ⟨.exn e, s1, tr1⟩
  | ⟨.ok _, s1, tr1⟩ =>
    let body : PyRun Unit :=
      match index_rate with
      | none => ⟨.exn .typeError, s1, []⟩
      | some _ =>
        match rms_mix_rate with
        | none => ⟨.exn .typeError, s1, []⟩
        | some _ =>
          match protect with
          | none => ⟨.exn .typeError, s1, []⟩
          | some _ =>
            let a : VCArgs :=
              { sid := 0, input_audio_path := audio_input_path,
                f0_up_key := f0up_key, f0_file := none, f0_method := f0method,
                file_index := index_path, index_rate := index_rate,
                resample_sr := 0, rms_mix_rate := rms_mix_rate,
                protect := protect, hop_length := hop_length,
                output_path := audio_output_path, split_audio := split_audio,
                f0autotune := f0autotune, filter_radius := filter_radius,
                embedder_model := embedder_model }
            let r := voice_conversion fuel env s1 a
            ⟨(match r.out with | .exn e => .exn e | .ok _ => .ok ()), r.s, r.tr⟩
    entryCatch tr1 body

/-- A first concrete checkpoint for test runs: `config = [10, 2, 100, 40000]`
(so the target sample rate is 40000 and the corrected speaker slot is
index 1), weights `"w1"`, speaker-embedding width 7, pitch-conditioned,
no version tag (so `"v1"` is used). -/
def cpt1 : Checkpoint :=
  { config := [10, 2, 100, 40000], weightId := "w1", embShape0 := 7,
    f0 := some 1, version := none }

/-- A second checkpoint, also pitch-conditioned, with different weights,
width and sample rate. -/
def cpt2 : Checkpoint :=
  { config := [11, 3, 200, 48000], weightId := "w2", embShape0 := 9,
    f0 := some 1, version := some "v1" }

/-- A concrete, fully successful environment: checkpoints at `"p1"`/`"p2"`,
similarity indexes at `"i1"` (d = 4, three vectors) and `"i2"` (d = 8, two
vectors), a splitter that produces directory `"dir"` holding two chunk
files, and collaborators that always succeed. -/
def env0 : Env :=
  { mkConfig := fun dev => ⟨dev, false⟩,
    torch_load := fun p =>
      if p = "p1" then .ok cpt1
      else if p = "p2" then .ok cpt2
      else .error (.raised "checkpoint missing"),
    faiss_read := fun p =>
      if p = "i1" then .ok ⟨4, [1, 2, 3]⟩
      else if p = "i2" then .ok ⟨8, [7, 8]⟩
      else .error (.raised "index missing"),
    load_embedding := fun _ => .ok "hub",
    load_audio := fun p =>
      match p with
      | none => .error .typeError
      | some _ => .ok "aud",
    peakNorm := fun au => .ok au,
    process_audio := fun p =>
      match p with
      | none => .error .typeError
      | some _ => .ok ("ok", "dir"),
    listWavs := fun d => if d = "dir" then ["dir/c1.wav", "dir/c2.wav"] else [],
    merge := fun _ => .ok (40000, "merged"),
    pipeline := fun _ => .ok "out",
    resample := fun _ _ _ => .ok "res",
    write := fun _ _ _ => .ok () }

/-- The state of the concrete pipeline after one fully successful
ensure-ready call: checkpoint `"p1"`, index `"i1"`, training subset size 2. -/
def sW : RVCState :=
  (get_vc env0 (initState env0 "cpu") "p1" 0 (some "i1") 2 true).s

/-- The matching engine cached in `sW`: built from index `"i1"` with
`d = 4`, `data = [1,2,3]` and `train_data = [1,2]`. -/
def engW : VCEngine :=
  ⟨some 40000, some ⟨"cpu", false⟩, some ([1, 2, 3], 4, [1, 2])⟩

/-- Conversion arguments with the Python boolean `True` in the
`split_audio` slot. -/
def aBoolTrue : VCArgs :=
  { input_audio_path := some "in.wav", f0_up_key := some 0,
    file_index := some "i1", output_path := some "out.wav",
    split_audio := .pyBool true, filter_radius := some (.int 3),
    embedder_model := some (.str "cv") }

/-- The same conversion arguments with the string `"True"` instead. -/
def aStr : VCArgs := { aBoolTrue with split_audio := .pyStr "True" }

/-- An environment whose checkpoint loading always fails. -/
def envBad : Env :=
  { env0 with torch_load := fun _ => .error (.raised "load failure") }

/-- The `VC.pipeline` invocation that the segmented run
`voice_conversion 3 env0 sW aStr` performs on its first chunk: note the
`filterRadius` slot holds the caller's embedder-model string. -/
def paW : PipeArgs :=
  { hubert := some ⟨"hub", some "cpu", some false⟩,
    netG := some ⟨.ms256_sid, [10, 7, 100, 40000], some false, some "w1",
      some "cpu", some false⟩,
    sid := 0, audio := "aud", inputPath := some "dir/c1.wav", f0UpKey := 0,
    f0Method := none, fileIndex := "i1", indexRate := none, ifF0 := 1,
    filterRadius := some (.str "cv"), tgtSr := some 40000, resampleSr := 0,
    rmsMixRate := none, version := some "v1", protect := none,
    hopLength := none, f0autotune := false, f0File := none }

/-- The network `load_synthesizer` produces when it does run a constructor:
variant selected by `(version, if_f0)`, configured from the (corrected)
checkpoint config, weights loaded, moved to the configured device and
precision. -/
def builtNet (ver : Option String) (f : Int) (cfg : List Int) (wid : String)
    (c : Cfg) : NetG :=
  { arch := if ver = some "v1" then
        (if f = 1 then Arch.ms256_sid else Arch.ms256_nono)
      else (if f = 1 then Arch.ms768_sid else Arch.ms768_nono),
    cfg := cfg,
    ctorHalf := if f = 1 then some c.is_half else none,
    weights := some wid, device := some c.device, half := some c.is_half }

/-- Whether an effect is an invocation of the audio splitter. -/
def Eff.isSplitCall : Eff → Bool
  | .splitCall _ => true
  | _ => false

/-- Whether an effect is an invocation of the per-utterance synthesis
pipeline. -/
def Eff.isPipelineCall : Eff → Bool
  | .pipelineCall _ => true
  | _ => false

/-- The protective wrapper of `voice_conversion` never lets an exception
through. -/
theorem pyTryVC_out_isOk (r : PyRun VCResult) : ((pyTryVC r).out).isOk = true := by
  rcases r with ⟨o, s, tr⟩
  cases o <;> rfl

/-- The protective wrapper does not change the trace. -/
theorem pyTryVC_tr (r : PyRun VCResult) : (pyTryVC r).tr = r.tr := by
  rcases r with ⟨o, s, tr⟩
  cases o <;> rfl

/-- The entry's exception handler always returns normally. -/
theorem entryCatch_out (tr1 : List Eff) (b : PyRun Unit) :
    (entryCatch tr1 b).out = .ok () := by
  rcases b with ⟨o, s2, tr2⟩
  cases o <;> rfl

/-- C2 (amended): a `load_index_file` call with an absent index path clears
the cached index path, `data`, `d` and `train_data`, but -- contrary to the
claim -- it does NOT clear the matching engine: an existing `vc` (even an
index-based one) is kept unchanged, and only when no engine exists is a
fresh index-free one built; the cached `training_data_size` is not reset
either. -/
theorem C2_clear_index_derived_state (env : Env) (s : RVCState) (tds : Int)
    (hn : s.n_spk ≠ none) :
    (load_index_file env s none tds).out = .ok () ∧
    (load_index_file env s none tds).s.file_index = none ∧
    (load_index_file env s none tds).s.data = none ∧
    (load_index_file env s none tds).s.d = none ∧
    (load_index_file env s none tds).s.train_data = none ∧
    (load_index_file env s none tds).s.vc =
      (if s.vc = none then some ⟨s.tgt_sr, s.config, none⟩ else s.vc) ∧
    (load_index_file env s none tds).s.training_data_size = s.training_data_size := by
  unfold load_index_file lif_step1 lif_step2 lif_step3 lif_step4
  by_cases hvc : s.vc = none <;>
    simp_all [pySeq]

/-- C2 witness: the amended statement evaluated on the concrete
post-ensure-ready state `sW`. -/
theorem C2_witness :
    (load_index_file env0 sW none 2).out = .ok () ∧
    (load_index_file env0 sW none 2).s.file_index = none ∧
    (load_index_file env0 sW none 2).s.data = none ∧
    (load_index_file env0 sW none 2).s.d = none ∧
    (load_index_file env0 sW none 2).s.train_data = none ∧
    (load_index_file env0 sW none 2).s.vc =
      (if sW.vc = none then some ⟨sW.tgt_sr, sW.config, none⟩ else sW.vc) ∧
    (load_index_file env0 sW none 2).s.training_data_size = sW.training_data_size :=
  C2_clear_index_derived_state env0 sW 2 (by decide)

/-- C2 counterexample: from a reachable state whose matching engine is
index-based, an ensure-ready call with an absent index path leaves that
index-based engine in place, so "all index-derived state is cleared,
including the matching engine (`vc`)" is false. -/
theorem C2_counterexample :
    sW.vc = some engW ∧
    (load_index_file env0 sW none 2).s.vc = some engW ∧
    engW.withIndex = some ([1, 2, 3], 4, [1, 2]) := by decide

/-- C3 (amended): a `load_index_file` call with a non-empty index path
different from the cached one reloads `d` and `data` from the new path, but
-- contrary to the claim -- when `training_data_size` is unchanged the
matching engine is NOT rebuilt (the engine holding the previous index's
arrays is kept) and `train_data` is not recomputed; the trace shows the
index read is the only external effect. -/
theorem C3_index_path_change_reload (env : Env) (s : RVCState) (p0 q : String)
    (tds : Int) (idx : FaissIndex) (eng : VCEngine)
    (hfi : s.file_index = some p0) (hne : p0 ≠ q)
    (hread : env.faiss_read q = .ok idx)
    (htds : s.training_data_size = some tds)
    (hvc : s.vc = some eng) (hn : s.n_spk ≠ none) :
    (load_index_file env s (some q) tds).out = .ok () ∧
    (load_index_file env s (some q) tds).s.file_index = some q ∧
    (load_index_file env s (some q) tds).s.d = some idx.d ∧
    (load_index_file env s (some q) tds).s.data = some idx.vectors ∧
    (load_index_file env s (some q) tds).s.vc = some eng ∧
    (load_index_file env s (some q) tds).s.train_data = s.train_data ∧
    (load_index_file env s (some q) tds).tr = [.indexRead q] := by
  unfold load_index_file lif_step1 lif_step2 lif_step3 lif_step4
  simp_all [pySeq]

/-- C3 witness: the amended statement evaluated on `sW` (cached index
`"i1"`) with new path `"i2"` and unchanged subset size. -/
theorem C3_witness :
    (load_index_file env0 sW (some "i2") 2).out = .ok () ∧
    (load_index_file env0 sW (some "i2") 2).s.file_index = some "i2" ∧
    (load_index_file env0 sW (some "i2") 2).s.d = some (8 : Int) ∧
    (load_index_file env0 sW (some "i2") 2).s.data = some [7, 8] ∧
    (load_index_file env0 sW (some "i2") 2).s.vc = some engW ∧
    (load_index_file env0 sW (some "i2") 2).s.train_data = sW.train_data ∧
    (load_index_file env0 sW (some "i2") 2).tr = [.indexRead "i2"] := by
  have h := C3_index_path_change_reload env0 sW "i1" "i2" 2 ⟨8, [7, 8]⟩ engW
    (by decide) (by decide) (by decide) (by decide) (by decide) (by decide)
  exact h

/-- C3 counterexample: after changing the index path from `"i1"` to `"i2"`
with the same `training_data_size`, the new arrays are cached but the
matching engine is still the one built from `"i1"`'s arrays and
`train_data` is still the old prefix, so "the matching engine is rebuilt
from the new index's arrays" is false. -/
theorem C3_counterexample :
    (load_index_file env0 sW (some "i2") 2).s.data = some [7, 8] ∧
    (load_index_file env0 sW (some "i2") 2).s.d = some (8 : Int) ∧
    (load_index_file env0 sW (some "i2") 2).s.vc = some engW ∧
    engW.withIndex = some ([1, 2, 3], 4, [1, 2]) ∧
    (load_index_file env0 sW (some "i2") 2).s.train_data = some [1, 2] := by
  decide

/-- C8: an ensure-ready call that changes only `training_data_size` (same
non-empty cached index path) recomputes `train_data` as the bounded prefix
of the cached `data`, rebuilds the matching engine from the cached arrays
and the new subset, leaves `file_index`, `data` and `d` unchanged, and its
only external effects are the recomputation and the engine build -- in
particular no index read. -/
theorem C8_tds_change_recompute (env : Env) (s : RVCState) (p : String)
    (t0 tds : Int) (dat : List Int) (dv : Int) (eng : VCEngine)
    (hfi : s.file_index = some p)
    (ht0 : s.training_data_size = some t0) (hne : t0 ≠ tds)
    (hdat : s.data = some dat) (hd : s.d = some dv)
    (hvc : s.vc = some eng) (hn : s.n_spk ≠ none) :
    (load_index_file env s (some p) tds).out = .ok () ∧
    (load_index_file env s (some p) tds).s.train_data =
      some (pySlice dat (min tds (dat.length : Int))) ∧
    (load_index_file env s (some p) tds).s.file_index = some p ∧
    (load_index_file env s (some p) tds).s.data = some dat ∧
    (load_index_file env s (some p) tds).s.d = some dv ∧
    (load_index_file env s (some p) tds).s.training_data_size = some tds ∧
    (load_index_file env s (some p) tds).s.vc =
      some ⟨s.tgt_sr, s.config, some (dat, dv, pySlice dat (min tds (dat.length : Int)))⟩ ∧
    (load_index_file env s (some p) tds).tr = [.trainDataRecompute, .vcBuild] := by
  unfold load_index_file lif_step1 lif_step2 lif_step3 lif_step4
  simp_all [pySeq]

/-- C8 witness: growing the subset size from 2 to 3 on `sW` recomputes
`train_data` from the cached `[1,2,3]` and rebuilds the engine, with no
index read in the trace. -/
theorem C8_witness :
    (load_index_file env0 sW (some "i1") 3).out = .ok () ∧
    (load_index_file env0 sW (some "i1") 3).s.train_data =
      some (pySlice [1, 2, 3] (min 3 (([1, 2, 3] : List Int).length : Int))) ∧
    (load_index_file env0 sW (some "i1") 3).s.file_index = some "i1" ∧
    (load_index_file env0 sW (some "i1") 3).s.data = some [1, 2, 3] ∧
    (load_index_file env0 sW (some "i1") 3).s.d = some (4 : Int) ∧
    (load_index_file env0 sW (some "i1") 3).s.training_data_size = some (3 : Int) ∧
    (load_index_file env0 sW (some "i1") 3).s.vc =
      some ⟨sW.tgt_sr, sW.config,
        some ([1, 2, 3], 4, pySlice [1, 2, 3] (min 3 (([1, 2, 3] : List Int).length : Int)))⟩ ∧
    (load_index_file env0 sW (some "i1") 3).tr = [.trainDataRecompute, .vcBuild] :=
  C8_tds_change_recompute env0 sW "i1" 2 3 [1, 2, 3] 4 engW
    (by decide) (by decide) (by decide) (by decide) (by decide) (by decide) (by decide)

/-- C5 (amended): once the initial integer coercion of `f0_up_key` has
succeeded (the argument is not `None`), `voice_conversion` never raises:
its whole remaining body is wrapped by the handler that converts any
exception into the `(None, None)` result.  The coercion itself, however,
runs before that handler and can raise (see the counterexample); and chunk
-batch exceptions are converted by an inner handler into an error-string
result rather than `(None, None)`. -/
theorem C5_no_raise_after_coercion (fuel : Nat) (env : Env) (s : RVCState)
    (a : VCArgs) (k : Int) (h : a.f0_up_key = some k) :
    ((voice_conversion (fuel + 1) env s a).out).isOk = true := by
  unfold voice_conversion
  rw [h]
  exact pyTryVC_out_isOk _

/-- C5 witness: a conversion call whose `f0_up_key` coerces returns
normally even though its audio load fails. -/
theorem C5_witness :
    (({f0_up_key := some 0} : VCArgs)).f0_up_key = some 0 ∧
    ((voice_conversion 2 env0 (initState env0 "cpu")
        ({f0_up_key := some 0} : VCArgs)).out).isOk = true :=
  ⟨rfl, C5_no_raise_after_coercion 1 env0 (initState env0 "cpu") _ 0 rfl⟩

/-- C5 counterexample: with the default `f0_up_key = None`, the coercion
`int(f0_up_key)` on line 192 raises `TypeError` before the protective
handler is entered, so the exception escapes the operation instead of
becoming `(None, None)`. -/
theorem C5_counterexample :
    (voice_conversion 2 env0 (initState env0 "cpu") ({} : VCArgs)).out =
      .exn .typeError := by decide

/-- C4 (amended): `infer_pipeline` swallows (with a log) every exception of
the conversion step -- whenever the ensure-ready `get_vc` call returns
normally, the entry returns normally no matter what the rest does.  But the
ensure-ready step itself runs before the `try` (line 333), so a
resource-load failure there propagates to the caller (see the
counterexample). -/
theorem C4_entry_swallows_after_ensure_ready (fuel : Nat) (env : Env)
    (s : RVCState)
    (f0up_key : Option Int) (filter_radius : Option Scalar)
    (index_rate : Option Int) (rms_mix_rate : Option Int)
    (protect : Option Int) (hop_length : Option Int)
    (f0method : Option String) (audio_input_path : Option String)
    (audio_output_path : Option String) (model_path : String)
    (index_path : Option String) (split_audio : PyBoolStr)
    (f0autotune : Bool) (embedder_model : Option Scalar)
    (training_data_size : Int) (debug_rvc : Bool) (v : Option VCEngine)
    (h : (get_vc env {s with debug_rvc := debug_rvc} model_path 0
        (entryFileIdx index_path) training_data_size debug_rvc).out = .ok v) :
    (infer_pipeline fuel env s f0up_key filter_radius index_rate rms_mix_rate
      protect hop_length f0method audio_input_path audio_output_path model_path
      index_path split_audio f0autotune embedder_model training_data_size
      debug_rvc).out = .ok () := by
  simp only [infer_pipeline]
  set g := get_vc env {s with debug_rvc := debug_rvc} model_path 0
      (entryFileIdx index_path) training_data_size debug_rvc with hg
  rcases g with ⟨o, s1, tr1⟩
  simp only at h
  subst h
  simp only
  exact entryCatch_out _ _

/-- C4 witness: with a healthy environment the ensure-ready call succeeds
and the entry returns normally. -/
theorem C4_witness :
    (get_vc env0 {initState env0 "cpu" with debug_rvc := true} "p1" 0
        (entryFileIdx (some "i1")) 2 true).out = .ok (some engW) ∧
    (infer_pipeline 3 env0 (initState env0 "cpu") (some 0) none (some 1)
      (some 1) (some 1) (some 64) (some "rmvpe") (some "in.wav")
      (some "out.wav") "p1" (some "i1") (.pyBool false) false none 2
      true).out = .ok () :=
  ⟨by decide,
    C4_entry_swallows_after_ensure_ready 3 env0 (initState env0 "cpu")
      (some 0) none (some 1) (some 1) (some 1) (some 64) (some "rmvpe")
      (some "in.wav") (some "out.wav") "p1" (some "i1") (.pyBool false)
      false none 2 true (some engW) (by decide)⟩

/-- C4 counterexample: when the checkpoint load inside the ensure-ready
step fails, the exception escapes `infer_pipeline` to the caller -- it is
neither caught nor swallowed, refuting the claim that the caller never
observes a raised error. -/
theorem C4_counterexample :
    (infer_pipeline 3 envBad (initState envBad "cpu") (some 0) none (some 1)
      (some 1) (some 1) (some 64) (some "rmvpe") (some "in.wav")
      (some "out.wav") "p1" (some "i1") (.pyBool false) false none 2
      true).out = .exn (.raised "load failure") := by decide

/-- When the requested f0 flag equals the cached one, `load_synthesizer`
does nothing. -/
theorem ls_skip (s : RVCState) (f : Int) (h : s.if_f0 = some f) :
    load_synthesizer s f = ⟨.ok (), s, []⟩ := by
  unfold load_synthesizer
  rw [if_neg]
  simp [h]

/-- When the requested f0 flag differs and version, checkpoint and config
are in place, `load_synthesizer` builds the selected network. -/
theorem ls_build (s : RVCState) (f : Int) (cp : Checkpoint) (c : Cfg)
    (hneq : s.if_f0 ≠ some f) (hcpt : s.cpt = some cp) (hcfg : s.config = some c)
    (hver : s.version = some "v1" ∨ s.version = some "v2") :
    load_synthesizer s f = ⟨.ok (),
      {s with net_g := some (builtNet s.version f cp.config cp.weightId c), if_f0 := some f},
      [.synthBuild]⟩ := by
  unfold load_synthesizer builtNet
  rw [if_pos hneq]
  rcases hver with hv | hv <;> rw [hv] <;> by_cases hf : f = 1 <;>
    simp_all

/-- C1 (amended): after `load_person` with a new checkpoint path, the
synthesis network is rebuilt from the new checkpoint only when the new
checkpoint's f0 flag (default 1) differs from the cached `if_f0`; in that
case `net_g` is the network selected by the checkpoint's `(version, f0)`
pair, constructed from the corrected config with the new weights loaded.
When the flag is unchanged -- as between any two pitch-conditioned
checkpoints -- `net_g` is left exactly as it was, still holding the
previous checkpoint's architecture and weights. -/
theorem C1_load_person_synth_rebuild (env : Env) (s : RVCState) (p : String)
    (cpt : Checkpoint) (c : Cfg)
    (hp : s.person ≠ some p)
    (hload : env.torch_load p = .ok cpt)
    (hlen : 3 ≤ cpt.config.length)
    (hcfg : s.config = some c)
    (hver : cpt.version.getD "v1" = "v1" ∨ cpt.version.getD "v1" = "v2") :
    (s.if_f0 = some (cpt.f0.getD 1) →
      (load_person env s p).out = .ok () ∧
      (load_person env s p).s.net_g = s.net_g) ∧
    (s.if_f0 ≠ some (cpt.f0.getD 1) →
      (load_person env s p).out = .ok () ∧
      (load_person env s p).s.net_g =
        some (builtNet (some (cpt.version.getD "v1")) (cpt.f0.getD 1)
          (cpt.config.set (cpt.config.length - 3) cpt.embShape0)
          cpt.weightId c)) := by
  have hnil : cpt.config ≠ [] := by
    intro hx
    rw [hx] at hlen
    simp at hlen
  obtain ⟨sr, hsr⟩ : ∃ sr, cpt.config.getLast? = some sr := by
    cases hg : cpt.config.getLast? with
    | some x => exact ⟨x, rfl⟩
    | none => exact absurd (List.getLast?_eq_none_iff.mp hg) hnil
  unfold load_person
  rw [if_pos hp, hload]
  simp only [hsr, if_pos hlen]
  constructor
  · intro heq
    rw [ls_skip _ _ (by simpa using heq)]
    exact ⟨rfl, rfl⟩
  · intro hneq
    rw [ls_build _ _ ({cpt with config := cpt.config.set (cpt.config.length - 3) cpt.embShape0}) c
      (by simpa using hneq) (by simp) (by simpa using hcfg) (by simpa using hver)]
    simp

/-- C1 witness: the rebuild case on a fresh instance loading checkpoint
`"p1"` (cached `if_f0` is `None`, so the flags differ and the network is
built from the checkpoint). -/
theorem C1_witness :
    (initState env0 "cpu").if_f0 ≠ some (cpt1.f0.getD 1) ∧
    (load_person env0 (initState env0 "cpu") "p1").out = .ok () ∧
    (load_person env0 (initState env0 "cpu") "p1").s.net_g =
      some (builtNet (some (cpt1.version.getD "v1")) (cpt1.f0.getD 1)
        (cpt1.config.set (cpt1.config.length - 3) cpt1.embShape0)
        cpt1.weightId ⟨"cpu", false⟩) :=
  ⟨by decide,
    (C1_load_person_synth_rebuild env0 (initState env0 "cpu") "p1" cpt1
      ⟨"cpu", false⟩ (by decide) (by decide) (by decide) (by decide)
      (Or.inl (by decide))).2 (by decide)⟩

/-- C1 counterexample: loading checkpoint `"p2"` (weights `"w2"`, f0 flag 1)
over the cached `"p1"` (also f0 flag 1) succeeds and replaces `person` and
`cpt`, yet `net_g` still holds `"p1"`'s weights `"w1"` -- the claim that
after the load `net_g` carries the new checkpoint's weights is false. -/
theorem C1_counterexample :
    (load_person env0 sW "p2").out = .ok () ∧
    (load_person env0 sW "p2").s.person = some "p2" ∧
    (load_person env0 sW "p2").s.cpt =
      some { config := [11, 9, 200, 48000], weightId := "w2", embShape0 := 9,
             f0 := some 1, version := some "v1" } ∧
    (load_person env0 sW "p2").s.net_g = sW.net_g ∧
    (load_person env0 sW "p2").s.net_g.map NetG.weights = some (some "w1") ∧
    cpt2.weightId = "w2" := by decide

/-- When the f0 flag differs but the device configuration is gone
(`config = None`) and no network exists, every path of `load_synthesizer`
dereferences the missing config or the missing network and raises
`AttributeError`. -/
theorem ls_noconfig (s : RVCState) (f : Int) (cp : Checkpoint)
    (hneq : s.if_f0 ≠ some f) (hcfg : s.config = none) (hnet : s.net_g = none)
    (hcpt : s.cpt = some cp) :
    (load_synthesizer s f).out = .exn .attributeError := by
  unfold load_synthesizer
  rw [if_pos hneq]
  by_cases hv1 : s.version = some "v1" <;> by_cases hv2 : s.version = some "v2" <;>
    by_cases hf : f = 1 <;> simp_all

/-- C6 (amended): `clean_up` does clear every cached resource reference and
every cache key (the resulting state is the all-`None` state, with only the
debug flag retained), so a subsequent `get_vc` attempts full reloads; but
the instance does not behave as freshly constructed: `clean_up` also nulls
`config`, which `__init__` would have rebuilt, so the subsequent `get_vc`
raises `AttributeError` while dereferencing the missing device
configuration (a fresh instance succeeds on the same inputs). -/
theorem C6_cleanup_not_fresh (s : RVCState) (env : Env) (p : String)
    (fi : Option String) (tds : Int) (dbg : Bool) (cpt : Checkpoint)
    (hload : env.torch_load p = .ok cpt) (hlen : 3 ≤ cpt.config.length) :
    (clean_up s).1 = groundState s.debug_rvc ∧
    (get_vc env (clean_up s).1 p 0 fi tds dbg).out = .exn .attributeError := by
  refine ⟨rfl, ?_⟩
  have hnil : cpt.config ≠ [] := by
    intro hx
    rw [hx] at hlen
    simp at hlen
  obtain ⟨sr, hsr⟩ : ∃ sr, cpt.config.getLast? = some sr := by
    cases hg : cpt.config.getLast? with
    | some x => exact ⟨x, rfl⟩
    | none => exact absurd (List.getLast?_eq_none_iff.mp hg) hnil
  have hlp : (load_person env (clean_up s).1 p).out = .exn .attributeError := by
    unfold load_person
    rw [if_pos (by simp [clean_up, groundState]), hload]
    simp only [hsr, if_pos hlen]
    exact ls_noconfig _ _ _ (by simp [clean_up, groundState])
      (by simp [clean_up, groundState]) (by simp [clean_up, groundState]) rfl
  unfold get_vc
  rcases hr : load_person env (clean_up s).1 p with ⟨o, sa, ta⟩
  rw [hr] at hlp
  simp only at hlp
  subst hlp
  simp

/-- C6 witness: the amended statement at the concrete state `sW`. -/
theorem C6_witness :
    (clean_up sW).1 = groundState sW.debug_rvc ∧
    (get_vc env0 (clean_up sW).1 "p1" 0 (some "i1") 2 true).out =
      .exn .attributeError :=
  C6_cleanup_not_fresh sW env0 "p1" (some "i1") 2 true cpt1 (by decide) (by decide)

/-- C6 counterexample: on the very same environment and arguments, a fresh
instance's `get_vc` succeeds while the post-`clean_up` instance's `get_vc`
raises, so after cleanup the instance does not behave as if freshly
constructed. -/
theorem C6_counterexample :
    ((get_vc env0 (initState env0 "cpu") "p1" 0 (some "i1") 2 true).out).isOk = true ∧
    (get_vc env0
        (clean_up ((get_vc env0 (initState env0 "cpu") "p1" 0 (some "i1") 2 true).s)).1
        "p1" 0 (some "i1") 2 true).out = .exn .attributeError := by decide

/-- `load_hubert` performs exactly one extractor load. -/
theorem load_hubert_tr (env : Env) (s : RVCState) (m : Option Scalar) :
    (load_hubert env s m).tr = [.hubertLoad m] := by
  unfold load_hubert
  rcases hle : env.load_embedding m with e | hid
  · rfl
  rcases hc : s.config with _ | c <;> simp [hc]

/-- The pre-branch steps of `voice_conversion` emit at most the lazy
extractor load. -/
theorem vc_pre_tr (env : Env) (s : RVCState) (a : VCArgs) :
    (vc_pre env s a).tr = [] ∨
    (vc_pre env s a).tr = [.hubertLoad a.embedder_model] := by
  unfold vc_pre
  rcases hla : env.load_audio a.input_audio_path with e | au
  · left
    rfl
  dsimp only
  rcases hpn : env.peakNorm au with e | au2
  · left
    rfl
  dsimp only
  rcases hr : (if s.hubert_model = none then load_hubert env s a.embedder_model
      else ⟨.ok (), s, []⟩ : PyRun Unit) with ⟨oh, sh, th⟩
  have hhub : th = [] ∨ th = [Eff.hubertLoad a.embedder_model] := by
    by_cases hm : s.hubert_model = none
    · rw [if_pos hm] at hr
      have hx := load_hubert_tr env s a.embedder_model
      rw [hr] at hx
      exact Or.inr (by simpa using hx)
    · rw [if_neg hm] at hr
      simp only [PyRun.mk.injEq] at hr
      exact Or.inl hr.2.2.symm
  cases oh
  case exn e => exact hhub
  case ok u =>
    rcases hcpt : sh.cpt with _ | cpt
    · simp only [hcpt]
      exact hhub
    simp only [hcpt]
    rcases hfi : a.file_index with _ | fi
    · exact hhub
    exact hhub

/-- The resampling step emits no effects. -/
theorem vc_resample_tr (env : Env) (s : RVCState) (a : VCArgs) (au : String) :
    (vc_resample env s a au).tr = [] := by
  unfold vc_resample
  split
  · split <;> rfl
  · rfl

/-- The write step emits at most one file write. -/
theorem vc_write_tr (env : Env) (s : RVCState) (a : VCArgs) (au : String) :
    (vc_write env s a au).tr = [] ∨
    ∃ op, (vc_write env s a au).tr = [Eff.fileWrite op] := by
  unfold vc_write
  split
  · exact Or.inl rfl
  · rename_i op hop
    right
    refine ⟨op, ?_⟩
    split <;> rfl

/-- Post-processing performs no synthesis-pipeline call. -/
theorem vc_post_no_pipe (env : Env) (s : RVCState) (a : VCArgs) (au : String)
    (pa : PipeArgs) :
    Eff.pipelineCall pa ∉ (vc_post env s a au).tr := by
  unfold vc_post
  rcases hr : vc_resample env s a au with ⟨o1, s1, t1⟩
  have ht1 : t1 = [] := by
    have hx := vc_resample_tr env s a au
    rw [hr] at hx
    exact hx
  subst ht1
  cases o1
  case exn e => simp
  case ok au2 =>
    have hw := vc_write_tr env s1 a au2
    rcases hw with h | ⟨op, h⟩ <;> simp [h]

/-- Post-processing performs no segmentation call. -/
theorem vc_post_no_split (env : Env) (s : RVCState) (a : VCArgs) (au : String)
    (q : Option String) :
    Eff.splitCall q ∉ (vc_post env s a au).tr := by
  unfold vc_post
  rcases hr : vc_resample env s a au with ⟨o1, s1, t1⟩
  have ht1 : t1 = [] := by
    have hx := vc_resample_tr env s a au
    rw [hr] at hx
    exact hx
  subst ht1
  cases o1
  case exn e => simp
  case ok au2 =>
    have hw := vc_write_tr env s1 a au2
    rcases hw with h | ⟨op, h⟩ <;> simp [h]

/-- Every synthesis-pipeline call the direct branch emits carries the
caller's own `filter_radius`. -/
theorem vc_direct_pipe (env : Env) (s : RVCState) (a : VCArgs) (k : Int)
    (au : String) (f0v : Int) (fiN : String) (pa : PipeArgs)
    (hm : Eff.pipelineCall pa ∈ (vc_direct env s a k au f0v fiN).tr) :
    pa.filterRadius = a.filter_radius := by
  unfold vc_direct at hm
  split at hm
  · simp at hm
  · dsimp only at hm
    split at hm <;> simp_all

/-- The direct branch performs no segmentation call. -/
theorem vc_direct_no_split (env : Env) (s : RVCState) (a : VCArgs) (k : Int)
    (au : String) (f0v : Int) (fiN : String) (q : Option String) :
    Eff.splitCall q ∉ (vc_direct env s a k au f0v fiN).tr := by
  unfold vc_direct
  split
  · simp
  · dsimp only
    split <;> simp

/-- Any property that holds of every pipeline call of every single-chunk
run holds of every pipeline call of the whole chunk loop. -/
theorem voice_chunks_pipe (recf : RVCState → VCArgs → PyRun VCResult)
    (mk : String → VCArgs) (P : PipeArgs → Prop)
    (H : ∀ st q pa, Eff.pipelineCall pa ∈ (recf st (mk q)).tr → P pa) :
    ∀ s ps pa, Eff.pipelineCall pa ∈ (voice_chunks recf mk s ps).tr → P pa := by
  intro s ps
  induction ps generalizing s with
  | nil =>
    intro pa hm
    simp [voice_chunks] at hm
  | cons p rest ih =>
    intro pa hm
    rw [voice_chunks] at hm
    rcases hr : recf s (mk p) with ⟨o, s1, t1⟩
    rw [hr] at hm
    cases o
    case exn e =>
      refine H s p pa ?_
      rw [hr]
      exact hm
    case ok u =>
      dsimp only at hm
      rcases List.mem_append.mp hm with h1 | h2
      · refine H s p pa ?_
        rw [hr]
        exact h1
      · exact ih s1 pa h2

/-- The segmentation branch always records the splitter invocation as the
head of its trace, whatever happens afterwards. -/
theorem vc_split_head (recf : RVCState → VCArgs → PyRun VCResult) (env : Env)
    (s : RVCState) (a : VCArgs) (k : Int) (fiN : String) :
    ∃ rest, (vc_split recf env s a k fiN).tr =
      Eff.splitCall a.input_audio_path :: rest := by
  unfold vc_split
  rcases hpa : env.process_audio a.input_audio_path with e | pr
  · exact ⟨[], rfl⟩
  rcases pr with ⟨result, ndp⟩
  dsimp only
  by_cases hres : result = "Error"
  · rw [if_pos hres]
    exact ⟨[], rfl⟩
  rw [if_neg hres]
  by_cases hdir : pyStripFive ndp = ""
  · rw [if_pos hdir]
    exact ⟨[], rfl⟩
  rw [if_neg hdir]
  rcases hch : voice_chunks recf (chunkArgs a k fiN) s (env.listWavs (pyStripFive ndp)) with ⟨oc, sc, tc⟩
  cases oc with
  | exn e => exact ⟨tc, rfl⟩
  | ok u =>
    rcases hip : a.input_audio_path with _ | ip
    · exact ⟨tc, rfl⟩
    dsimp only
    rcases hmg : env.merge (pathJoin (dirnameS ndp) (beforeDotS (basenameS ip) ++ "_timestamps.txt")) with e | pr2
    · exact ⟨tc ++ [.mergeCall (pathJoin (dirnameS ndp) (beforeDotS (basenameS ip) ++ "_timestamps.txt"))], rfl⟩
    rcases pr2 with ⟨sr, auM⟩
    exact ⟨tc ++ [.mergeCall (pathJoin (dirnameS ndp) (beforeDotS (basenameS ip) ++ "_timestamps.txt")),
      .fileRemove (pathJoin (dirnameS ndp) (beforeDotS (basenameS ip) ++ "_timestamps.txt"))], rfl⟩

/-- Every pipeline call of the segmentation branch comes from one of the
per-chunk runs. -/
theorem vc_split_pipe (recf : RVCState → VCArgs → PyRun VCResult) (env : Env)
    (s : RVCState) (a : VCArgs) (k : Int) (fiN : String) (P : PipeArgs → Prop)
    (H : ∀ st q pa, Eff.pipelineCall pa ∈ (recf st (chunkArgs a k fiN q)).tr → P pa)
    (pa : PipeArgs)
    (hm : Eff.pipelineCall pa ∈ (vc_split recf env s a k fiN).tr) : P pa := by
  unfold vc_split at hm
  rcases hpa : env.process_audio a.input_audio_path with e | pr
  · rw [hpa] at hm
    simp at hm
  rcases pr with ⟨result, ndp⟩
  rw [hpa] at hm
  dsimp only at hm
  by_cases hres : result = "Error"
  · rw [if_pos hres] at hm
    simp at hm
  rw [if_neg hres] at hm
  by_cases hdir : pyStripFive ndp = ""
  · rw [if_pos hdir] at hm
    simp at hm
  rw [if_neg hdir] at hm
  rcases hch : voice_chunks recf (chunkArgs a k fiN) s (env.listWavs (pyStripFive ndp)) with ⟨oc, sc, tc⟩
  rw [hch] at hm
  have hpipe : Eff.pipelineCall pa ∈ tc → P pa := by
    intro hmem
    refine voice_chunks_pipe recf (chunkArgs a k fiN) P H s (env.listWavs (pyStripFive ndp)) pa ?_
    rw [hch]
    exact hmem
  cases oc with
  | exn e =>
    simp only [List.mem_cons] at hm
    rcases hm with h0 | h1
    · exact absurd h0 (by simp)
    · exact hpipe h1
  | ok u =>
    dsimp only at hm
    rcases hip : a.input_audio_path with _ | ip
    · rw [hip] at hm
      simp only [List.mem_cons] at hm
      rcases hm with h0 | h1
      · exact absurd h0 (by simp)
      · exact hpipe h1
    rw [hip] at hm
    dsimp only at hm
    rcases hmg : env.merge (pathJoin (dirnameS ndp) (beforeDotS (basenameS ip) ++ "_timestamps.txt")) with e | pr2
    · rw [hmg] at hm
      simp only [List.mem_cons, List.mem_append] at hm
      rcases hm with h0 | h1 | h2
      · exact absurd h0 (by simp)
      · exact hpipe h1
      · exact absurd h2 (by simp)
    rcases pr2 with ⟨sr, auM⟩
    rw [hmg] at hm
    simp only [List.mem_cons, List.mem_append] at hm
    rcases hm with h0 | h1 | h2
    · exact absurd h0 (by simp)
    · exact hpipe h1
    · exact absurd h2 (by simp)

/-- In a run whose segmentation is not requested by the exact string
`"True"`, every synthesis-pipeline call carries the caller's own
`filter_radius`: the direct branch is the only source of pipeline calls. -/
theorem pipe_of_not_split (fuel : Nat) (env : Env) (s : RVCState) (a : VCArgs)
    (pa : PipeArgs) (hs : a.split_audio ≠ .pyStr "True")
    (hm : Eff.pipelineCall pa ∈ (voice_conversion fuel env s a).tr) :
    pa.filterRadius = a.filter_radius := by
  cases fuel with
  | zero => simp [voice_conversion] at hm
  | succ fuel =>
    rw [voice_conversion] at hm
    rcases hk : a.f0_up_key with _ | k
    · rw [hk] at hm
      simp at hm
    rw [hk, pyTryVC_tr] at hm
    rcases hpre : vc_pre env s a with ⟨op, sp, tp⟩
    rw [hpre] at hm
    have htp : Eff.pipelineCall pa ∉ tp := by
      intro hmem
      have hx := vc_pre_tr env s a
      rw [hpre] at hx
      dsimp only at hx
      rcases hx with h | h <;> rw [h] at hmem <;> simp at hmem
    cases op with
    | exn e => exact absurd hm htp
    | ok v =>
      obtain ⟨au, f0v, fiN⟩ := v
      dsimp only at hm
      rw [if_neg hs] at hm
      rcases hd : vc_direct env sp a k au f0v fiN with ⟨od, sd, td⟩
      rw [hd] at hm
      cases od with
      | exn e =>
        dsimp only at hm
        rcases List.mem_append.mp hm with h1 | h2
        · exact absurd h1 htp
        · refine vc_direct_pipe env sp a k au f0v fiN pa ?_
          rw [hd]
          exact h2
      | ok auOut =>
        dsimp only at hm
        rcases List.mem_append.mp hm with h12 | h3
        · rcases List.mem_append.mp h12 with h1 | h2
          · exact absurd h1 htp
          · refine vc_direct_pipe env sp a k au f0v fiN pa ?_
            rw [hd]
            exact h2
        · exact absurd h3 (vc_post_no_pipe env sd a auOut pa)

/-- A run whose `split_audio` is anything other than the string `"True"`
never invokes the audio splitter. -/
theorem no_split_of_not_requested (fuel : Nat) (env : Env) (s : RVCState)
    (a : VCArgs) (q : Option String) (hs : a.split_audio ≠ .pyStr "True") :
    Eff.splitCall q ∉ (voice_conversion fuel env s a).tr := by
  intro hm
  cases fuel with
  | zero => simp [voice_conversion] at hm
  | succ fuel =>
    rw [voice_conversion] at hm
    rcases hk : a.f0_up_key with _ | k
    · rw [hk] at hm
      simp at hm
    rw [hk, pyTryVC_tr] at hm
    rcases hpre : vc_pre env s a with ⟨op, sp, tp⟩
    rw [hpre] at hm
    have htp : Eff.splitCall q ∉ tp := by
      intro hmem
      have hx := vc_pre_tr env s a
      rw [hpre] at hx
      dsimp only at hx
      rcases hx with h | h <;> rw [h] at hmem <;> simp at hmem
    cases op with
    | exn e => exact absurd hm htp
    | ok v =>
      obtain ⟨au, f0v, fiN⟩ := v
      dsimp only at hm
      rw [if_neg hs] at hm
      rcases hd : vc_direct env sp a k au f0v fiN with ⟨od, sd, td⟩
      rw [hd] at hm
      have htd : Eff.splitCall q ∉ td := by
        intro hmem
        refine vc_direct_no_split env sp a k au f0v fiN q ?_
        rw [hd]
        exact hmem
      cases od with
      | exn e =>
        dsimp only at hm
        rcases List.mem_append.mp hm with h1 | h2
        · exact absurd h1 htp
        · exact absurd h2 htd
      | ok auOut =>
        dsimp only at hm
        rcases List.mem_append.mp hm with h12 | h3
        · rcases List.mem_append.mp h12 with h1 | h2
          · exact absurd h1 htp
          · exact absurd h2 htd
        · exact absurd h3 (vc_post_no_split env sd a auOut q)

/-- C9 (amended): the segmentation branch of `voice_conversion` is taken
exactly when `split_audio` equals the string `"True"`.  Any other value --
including the boolean `True` -- takes the direct branch and never invokes
the splitter; with the string `"True"`, once the pre-branch steps succeed
the splitter invocation is in the run's trace. -/
theorem C9_branch_selection (fuel : Nat) (env : Env) (s : RVCState) (a : VCArgs) :
    (a.split_audio ≠ .pyStr "True" →
      ∀ q, Eff.splitCall q ∉ (voice_conversion (fuel + 1) env s a).tr) ∧
    (∀ k au f0v fiN, a.split_audio = .pyStr "True" → a.f0_up_key = some k →
      (vc_pre env s a).out = .ok (au, f0v, fiN) →
      Eff.splitCall a.input_audio_path ∈ (voice_conversion (fuel + 1) env s a).tr) := by
  constructor
  · intro hs q
    exact no_split_of_not_requested (fuel + 1) env s a q hs
  · intro k au f0v fiN hsplit hk hpre
    rw [voice_conversion, hk, pyTryVC_tr]
    rcases hp : vc_pre env s a with ⟨op, sp, tp⟩
    rw [hp] at hpre
    dsimp only at hpre
    subst hpre
    dsimp only
    rw [if_pos hsplit]
    rcases hsp : vc_split (fun st ar => voice_conversion fuel env st ar) env sp a k fiN with ⟨os, ss, ts⟩
    obtain ⟨rest, hrest⟩ := vc_split_head (fun st ar => voice_conversion fuel env st ar) env sp a k fiN
    rw [hsp] at hrest
    dsimp only at hrest
    subst hrest
    cases os with
    | exn e => simp
    | ok v2 =>
      rcases v2 with earlyRes | audioM
      · simp
      · simp

/-- C9 witness: with the boolean `True` no splitter call appears in the
trace; with the string `"True"` (and the pre-branch succeeding with audio
`"aud"`, f0 flag 1, normalized index `"i1"`) the splitter call appears. -/
theorem C9_witness :
    Eff.splitCall (some "in.wav") ∉ (voice_conversion 2 env0 sW aBoolTrue).tr ∧
    Eff.splitCall (some "in.wav") ∈ (voice_conversion 3 env0 sW aStr).tr :=
  ⟨(C9_branch_selection 1 env0 sW aBoolTrue).1 (by decide) (some "in.wav"),
   (C9_branch_selection 2 env0 sW aStr).2 0 "aud" 1 "i1" rfl rfl (by decide)⟩

/-- C9 counterexample: a conversion requested with the Python boolean
`True` in `split_audio` -- a true value of the parameter -- takes the
direct branch: its trace holds a direct synthesis-pipeline call on the
whole input and no splitter invocation, refuting the claim that a true
value selects the segmentation branch. -/
theorem C9_counterexample :
    aBoolTrue.split_audio = .pyBool true ∧
    ((voice_conversion 2 env0 sW aBoolTrue).tr.any Eff.isSplitCall) = false ∧
    ((voice_conversion 2 env0 sW aBoolTrue).tr.any Eff.isPipelineCall) = true := by
  decide

/-- C10: in a segmented run (`split_audio` is the string `"True"`), the
recursive per-chunk call passes fifteen positional arguments into the
sixteen-parameter signature, binding the caller's `embedder_model` to the
`filter_radius` parameter (and leaving the chunk's `embedder_model` at its
default `None`); consequently every synthesis-pipeline call of the run
carries the caller's embedder-model identifier as its filter radius, and
the caller-supplied `filter_radius` is not forwarded to any chunk. -/
theorem C10_chunk_filter_radius (fuel : Nat) (env : Env) (s : RVCState)
    (a : VCArgs) (pa : PipeArgs) (hsplit : a.split_audio = .pyStr "True")
    (hm : Eff.pipelineCall pa ∈ (voice_conversion fuel env s a).tr) :
    pa.filterRadius = a.embedder_model := by
  cases fuel with
  | zero => simp [voice_conversion] at hm
  | succ fuel =>
    rw [voice_conversion] at hm
    rcases hk : a.f0_up_key with _ | k
    · rw [hk] at hm
      simp at hm
    rw [hk, pyTryVC_tr] at hm
    rcases hpre : vc_pre env s a with ⟨op, sp, tp⟩
    rw [hpre] at hm
    have htp : Eff.pipelineCall pa ∉ tp := by
      intro hmem
      have hx := vc_pre_tr env s a
      rw [hpre] at hx
      dsimp only at hx
      rcases hx with h | h <;> rw [h] at hmem <;> simp at hmem
    cases op with
    | exn e => exact absurd hm htp
    | ok v =>
      obtain ⟨au, f0v, fiN⟩ := v
      dsimp only at hm
      rw [if_pos hsplit] at hm
      rcases hsp : vc_split (fun st ar => voice_conversion fuel env st ar) env sp a k fiN with ⟨os, ss, ts⟩
      rw [hsp] at hm
      have hts : Eff.pipelineCall pa ∈ ts → pa.filterRadius = a.embedder_model := by
        intro hmem
        refine vc_split_pipe (fun st ar => voice_conversion fuel env st ar) env sp a k fiN
          (fun x => x.filterRadius = a.embedder_model) ?_ pa ?_
        · intro st q2 pa2 hmm
          have hfr := pipe_of_not_split fuel env st (chunkArgs a k fiN q2) pa2
            (by simp [chunkArgs]) hmm
          simpa [chunkArgs] using hfr
        · rw [hsp]
          exact hmem
      cases os with
      | exn e =>
        dsimp only at hm
        rcases List.mem_append.mp hm with h1 | h2
        · exact absurd h1 htp
        · exact hts h2
      | ok v2 =>
        rcases v2 with earlyRes | audioM
        · dsimp only at hm
          rcases List.mem_append.mp hm with h1 | h2
          · exact absurd h1 htp
          · exact hts h2
        · dsimp only at hm
          rcases List.mem_append.mp hm with h12 | h3
          · rcases List.mem_append.mp h12 with h1 | h2
            · exact absurd h1 htp
            · exact hts h2
          · exact absurd h3 (vc_post_no_pipe env ss a audioM pa)

/-- C10 witness: in the concrete segmented run, the first chunk's pipeline
call `paW` carries filter radius `"cv"` -- the caller's embedder-model
string -- although the caller passed filter radius `3`. -/
theorem C10_witness :
    aStr.split_audio = .pyStr "True" ∧
    Eff.pipelineCall paW ∈ (voice_conversion 3 env0 sW aStr).tr ∧
    paW.filterRadius = aStr.embedder_model ∧
    aStr.filter_radius = some (.int 3) ∧
    aStr.embedder_model = some (.str "cv") :=
  ⟨rfl, by decide,
    C10_chunk_filter_radius 3 env0 sW aStr paW rfl (by decide),
    by decide, by decide⟩

/-- `load_synthesizer` never touches the `person` cache key. -/
theorem ls_person (s : RVCState) (f : Int) :
    (load_synthesizer s f).s.person = s.person := by
  unfold load_synthesizer
  repeat' first | rfl | split | dsimp only

/-- After any `load_person` call the cached `person` equals the requested
path (it is assigned before the checkpoint is even read). -/
theorem lp_person (env : Env) (s : RVCState) (p : String) :
    (load_person env s p).s.person = some p := by
  unfold load_person
  by_cases h : s.person = some p
  · rw [if_neg (by simp [h])]
    exact h
  · rw [if_pos h]
    rcases htl : env.torch_load p with e | cpt0
    · rfl
    dsimp only
    rcases hgl : cpt0.config.getLast? with _ | sr
    · rfl
    dsimp only
    by_cases hlen : 3 ≤ cpt0.config.length
    · rw [if_pos hlen]
      dsimp only
      rw [ls_person]
    · rw [if_neg hlen]

/-- With the path already cached, `load_person` does nothing. -/
theorem lp_skip (env : Env) (s : RVCState) (p : String) (h : s.person = some p) :
    load_person env s p = ⟨.ok (), s, []⟩ := by
  unfold load_person
  rw [if_neg (by simp [h])]

/-- What a successful first block of `load_index_file` guarantees. -/
theorem lif_step1_facts (env : Env) (s : RVCState) (fi : Option String)
    (sa : RVCState) (t1 : List Eff)
    (h : lif_step1 env s fi = ⟨.ok (), sa, t1⟩) :
    sa.file_index = fi ∧ (fi = none → sa.data = none ∧ sa.d = none ∧ sa.train_data = none) ∧
    sa.training_data_size = s.training_data_size ∧ sa.vc = s.vc ∧
    sa.n_spk = s.n_spk ∧ sa.person = s.person ∧ sa.cpt = s.cpt := by
  unfold lif_step1 at h
  rcases fi with _ | q
  all_goals dsimp only at h
  · simp only [PyRun.mk.injEq] at h
    obtain ⟨-, hs, -⟩ := h
    subst hs
    simp
  · by_cases hne : s.file_index = some q
    · rw [if_neg (by simp [hne])] at h
      simp only [PyRun.mk.injEq] at h
      obtain ⟨-, hs, -⟩ := h
      subst hs
      simp [hne]
    · rw [if_pos (by simp [hne])] at h
      rcases hfr : env.faiss_read q with e | idx <;> rw [hfr] at h <;>
        simp only [PyRun.mk.injEq] at h
      · exact absurd h.1 (by simp)
      · obtain ⟨-, hs, -⟩ := h
        subst hs
        simp

/-- What a successful second block of `load_index_file` guarantees. -/
theorem lif_step2_facts (s : RVCState) (tds : Int)
    (sb : RVCState) (t2 : List Eff)
    (h : lif_step2 s tds = ⟨.ok (), sb, t2⟩) :
    sb.file_index = s.file_index ∧ sb.data = s.data ∧ sb.d = s.d ∧
    sb.n_spk = s.n_spk ∧ sb.person = s.person ∧ sb.cpt = s.cpt ∧
    (s.file_index = none → sb = s) ∧
    (s.file_index ≠ none → sb.training_data_size = some tds) := by
  unfold lif_step2 at h
  by_cases hc : s.training_data_size ≠ some tds ∧ s.file_index ≠ none
  · rw [if_pos hc] at h
    rcases hd : s.data with _ | dat <;> rw [hd] at h <;>
      simp only [PyRun.mk.injEq] at h
    · exact absurd h.1 (by simp)
    · obtain ⟨-, hs, -⟩ := h
      by_cases hvc : s.vc ≠ none
      · rw [if_pos (by simpa using hvc)] at hs
        subst hs
        refine ⟨by simp, by simp, by simp, by simp, by simp, by simp, ?_, by simp⟩
        intro hfin
        exact absurd hfin hc.2
      · rw [if_neg (by simpa using hvc)] at hs
        subst hs
        refine ⟨by simp, by simp, by simp, by simp, by simp, by simp, ?_, by simp⟩
        intro hfin
        exact absurd hfin hc.2
  · rw [if_neg hc] at h
    simp only [PyRun.mk.injEq] at h
    obtain ⟨-, hs, -⟩ := h
    subst hs
    refine ⟨rfl, rfl, rfl, rfl, rfl, rfl, fun _ => rfl, ?_⟩
    intro hfin
    rcases Decidable.not_and_iff_or_not.mp hc with h1 | h2
    · simpa using h1
    · exact absurd hfin (by simpa using h2)

/-- What a successful third block of `load_index_file` guarantees. -/
theorem lif_step3_facts (s : RVCState) (sc : RVCState) (t3 : List Eff)
    (h : lif_step3 s = ⟨.ok (), sc, t3⟩) :
    sc.vc ≠ none ∧ sc.file_index = s.file_index ∧ sc.data = s.data ∧
    sc.d = s.d ∧ sc.train_data = s.train_data ∧
    sc.training_data_size = s.training_data_size ∧ sc.n_spk = s.n_spk ∧
    sc.person = s.person ∧ sc.cpt = s.cpt := by
  unfold lif_step3 at h
  by_cases hvc : s.vc = none
  · rw [if_pos hvc] at h
    rcases hdat : s.data with _ | dat <;> rcases hdd : s.d with _ | dv <;>
      rcases htd : s.train_data with _ | td <;>
      rw [hdat, hdd, htd] at h <;> simp only [PyRun.mk.injEq] at h <;>
      obtain ⟨-, hs, -⟩ := h <;> subst hs <;> simp [hdat, hdd, htd]
  · rw [if_neg hvc] at h
    simp only [PyRun.mk.injEq] at h
    obtain ⟨-, hs, -⟩ := h
    subst hs
    exact ⟨hvc, rfl, rfl, rfl, rfl, rfl, rfl, rfl, rfl⟩

/-- What a successful fourth block of `load_index_file` guarantees. -/
theorem lif_step4_facts (s : RVCState) (sd : RVCState) (t4 : List Eff)
    (h : lif_step4 s = ⟨.ok (), sd, t4⟩) :
    sd.n_spk ≠ none ∧ sd.file_index = s.file_index ∧ sd.data = s.data ∧
    sd.d = s.d ∧ sd.train_data = s.train_data ∧
    sd.training_data_size = s.training_data_size ∧ sd.vc = s.vc ∧
    sd.person = s.person := by
  unfold lif_step4 at h
  by_cases hn : s.n_spk = none
  · rw [if_pos hn] at h
    rcases hcpt : s.cpt with _ | cpt
    · rw [hcpt] at h
      simp at h
    rw [hcpt] at h
    dsimp only at h
    rcases hg : pyGetNeg3 cpt.config with _ | v
    · rw [hg] at h
      simp at h
    rw [hg] at h
    simp only [PyRun.mk.injEq] at h
    obtain ⟨-, hs, -⟩ := h
    subst hs
    simp
  · rw [if_neg hn] at h
    simp only [PyRun.mk.injEq] at h
    obtain ⟨-, hs, -⟩ := h
    subst hs
    exact ⟨hn, rfl, rfl, rfl, rfl, rfl, rfl, rfl⟩

/-- Re-clearing already-cleared fields is the identity on the state. -/
theorem clear_noop (s : RVCState) (h1 : s.file_index = none) (h2 : s.data = none)
    (h3 : s.d = none) (h4 : s.train_data = none) :
    ({s with file_index := none, data := none, d := none, train_data := none} : RVCState) = s := by
  cases s
  simp_all

/-- On a state already consistent with `(file_index, training_data_size)`,
`load_index_file` performs no reload, no recomputation and no rebuild: it
returns the state unchanged with an empty trace. -/
theorem lif_noop (env : Env) (s : RVCState) (fi : Option String) (tds : Int)
    (h1 : s.file_index = fi)
    (h2 : fi = none → s.data = none ∧ s.d = none ∧ s.train_data = none)
    (h3 : fi ≠ none → s.training_data_size = some tds)
    (h4 : s.vc ≠ none) (h5 : s.n_spk ≠ none) :
    load_index_file env s fi tds = ⟨.ok (), s, []⟩ := by
  have hs1 : lif_step1 env s fi = ⟨.ok (), s, []⟩ := by
    unfold lif_step1
    rcases fi with _ | q
    all_goals dsimp only
    · obtain ⟨ha, hb, hc⟩ := h2 rfl
      rw [clear_noop s h1 ha hb hc]
    · rw [if_neg (by simp [h1])]
  have hs2 : lif_step2 s tds = ⟨.ok (), s, []⟩ := by
    unfold lif_step2
    rw [if_neg]
    intro hcon
    rcases fi with _ | q
    · exact hcon.2 h1
    · exact hcon.1 (h3 (by simp) ▸ rfl)
  have hs3 : lif_step3 s = ⟨.ok (), s, []⟩ := by
    unfold lif_step3
    rw [if_neg h4]
  have hs4 : lif_step4 s = ⟨.ok (), s, []⟩ := by
    unfold lif_step4
    rw [if_neg h5]
  unfold load_index_file
  simp [pySeq, hs1, hs2, hs3, hs4]

/-- What a successful `load_index_file` call guarantees of its final
state. -/
theorem lif_ok_state (env : Env) (s : RVCState) (fi : Option String) (tds : Int)
    (s2 : RVCState) (tr : List Eff)
    (h : load_index_file env s fi tds = ⟨.ok (), s2, tr⟩) :
    s2.file_index = fi ∧ (fi ≠ none → s2.training_data_size = some tds) ∧
    (fi = none → s2.data = none ∧ s2.d = none ∧ s2.train_data = none) ∧
    s2.vc ≠ none ∧ s2.n_spk ≠ none ∧ s2.person = s.person := by
  unfold load_index_file at h
  rcases ha : lif_step1 env s fi with ⟨o1, sa, t1⟩
  rw [ha] at h
  cases o1 with
  | exn e => simp [pySeq] at h
  | ok u1 =>
    cases u1
    simp only [pySeq] at h
    rcases hb : lif_step2 sa tds with ⟨o2, sb, t2⟩
    rw [hb] at h
    cases o2 with
    | exn e => simp at h
    | ok u2 =>
      cases u2
      simp only at h
      rcases hc : lif_step3 sb with ⟨o3, sc, t3⟩
      rw [hc] at h
      cases o3 with
      | exn e => simp at h
      | ok u3 =>
        cases u3
        simp only at h
        rcases hd : lif_step4 sc with ⟨o4, sd, t4⟩
        rw [hd] at h
        cases o4 with
        | exn e => simp at h
        | ok u4 =>
          cases u4
          simp only [PyRun.mk.injEq] at h
          obtain ⟨-, hs, -⟩ := h
          subst hs
          obtain ⟨f1a, f1b, f1c, f1d, f1e, f1f, f1g⟩ := lif_step1_facts env s fi sa t1 ha
          obtain ⟨f2a, f2b, f2c, f2d, f2e, f2f, f2g, f2h⟩ := lif_step2_facts sa tds sb t2 hb
          obtain ⟨f3a, f3b, f3c, f3d, f3e, f3f, f3g, f3h, f3i⟩ := lif_step3_facts sb sc t3 hc
          obtain ⟨f4a, f4b, f4c, f4d, f4e, f4f, f4g, f4h⟩ := lif_step4_facts sc sd t4 hd
          refine ⟨?_, ?_, ?_, ?_, ?_, ?_⟩
          · rw [f4b, f3b, f2a, f1a]
          · intro hfin
            rw [f4f, f3f, f2h (by rw [f1a]; exact hfin)]
          · intro hfin
            subst hfin
            have hsb : sb = sa := f2g (by rw [f1a])
            subst hsb
            obtain ⟨ha1, hb1, hc1⟩ := f1b rfl
            refine ⟨?_, ?_, ?_⟩
            · rw [f4c, f3c, ha1]
            · rw [f4d, f3d, hb1]
            · rw [f4e, f3e, hc1]
          · rw [f4g]
            exact f3a
          · exact f4a
          · rw [f4h, f3h, f2e, f1f]

/-- C7: ensure-ready is idempotent.  If a `get_vc` call returns normally,
then repeating it with the same `(weight_root, file_index,
training_data_size)` from the resulting state performs zero external
effects -- no checkpoint read, no index read, no `train_data`
recomputation, no engine build (the trace is empty) -- leaves the cached
state exactly unchanged, and returns the cached engine. -/
theorem C7_get_vc_idempotent (env : Env) (s : RVCState) (p : String) (sid : Int)
    (fi : Option String) (tds : Int) (dbg : Bool)
    (h : ((get_vc env s p sid fi tds dbg).out).isOk = true) :
    get_vc env (get_vc env s p sid fi tds dbg).s p sid fi tds dbg =
      ⟨.ok ((get_vc env s p sid fi tds dbg).s).vc, (get_vc env s p sid fi tds dbg).s, []⟩ := by
  rcases hg : get_vc env s p sid fi tds dbg with ⟨o, s1, tr⟩
  rw [hg] at h
  dsimp only
  unfold get_vc at hg
  rcases hlp : load_person env s p with ⟨o1, sa, t1⟩
  rw [hlp] at hg
  cases o1 with
  | exn e =>
    simp only [PyRun.mk.injEq] at hg
    obtain ⟨ho, -, -⟩ := hg
    rw [← ho] at h
    simp [Outcome.isOk] at h
  | ok u1 =>
    cases u1
    simp only at hg
    rcases hlif : load_index_file env sa fi tds with ⟨o2, sb, t2⟩
    rw [hlif] at hg
    cases o2 with
    | exn e =>
      simp only [PyRun.mk.injEq] at hg
      obtain ⟨ho, -, -⟩ := hg
      rw [← ho] at h
      simp [Outcome.isOk] at h
    | ok u2 =>
      cases u2
      simp only [PyRun.mk.injEq] at hg
      obtain ⟨ho, hs, ht⟩ := hg
      subst hs
      have hpa : sa.person = some p := by
        have hx := lp_person env s p
        rw [hlp] at hx
        exact hx
      obtain ⟨fb1, fb2, fb3, fb4, fb5, fb6⟩ := lif_ok_state env sa fi tds sb t2 hlif
      have hp1 : sb.person = some p := by
        rw [fb6]
        exact hpa
      unfold get_vc
      rw [lp_skip env sb p hp1]
      dsimp only
      rw [lif_noop env sb fi tds fb1 fb3 fb2 fb4 fb5]
      rfl

/-- C7 witness: the concrete successful ensure-ready call on `env0`
repeated from its own final state returns the cached engine with an empty
trace and an unchanged state. -/
theorem C7_witness :
    ((get_vc env0 (initState env0 "cpu") "p1" 0 (some "i1") 2 true).out).isOk = true ∧
    get_vc env0 (get_vc env0 (initState env0 "cpu") "p1" 0 (some "i1") 2 true).s
        "p1" 0 (some "i1") 2 true =
      ⟨.ok ((get_vc env0 (initState env0 "cpu") "p1" 0 (some "i1") 2 true).s).vc,
        (get_vc env0 (initState env0 "cpu") "p1" 0 (some "i1") 2 true).s, []⟩ :=
  ⟨by decide,
    C7_get_vc_idempotent env0 (initState env0 "cpu") "p1" 0 (some "i1") 2 true (by decide)⟩
